import Mathlib

/-!
Shallow embedding of the agent orchestration core of the repository:
the `AgentSDK` task pipeline (createAgent / executeAgent / processAgentTask /
analyzeTask / createExecutionPlan / executePlan / executeTool /
generateFinalResponse / listAgents / updateAgent) and the `OpenAIAgentsSDK`
routing fallback (runAgent / runFallbackAgent with its sticky `useFallback`
flag and keyword triage), plus `ResponsesAPI.chat`.

External collaborators are modelled as oracles passed in explicitly:
the completion client as `Nat → Except String String` (result text of the
n-th completion call of a run, or the thrown message), JSON parsing of the
analysis text as `String → Option Analysis` (`none` = JSON.parse threw),
and the tool implementations as `String → Context → Except String ExtResult`.
JavaScript `Map`s become association lists with insertion-order `set`
semantics; JavaScript string truthiness (`undefined` and `""` are falsy)
is modelled explicitly.
-/

set_option linter.unusedVariables false

/-- JS `a || d` for strings: the empty string is falsy. -/
def jsOrStr (s d : String) : String := if s = "" then d else s

/-- JS `a || d` where `a` may be `undefined` (`none`) or a string. -/
def jsOrOpt (o : Option String) (d : String) : String :=
  match o with
  | some s => jsOrStr s d
  | none => d

/-- JS truthiness of a possibly-undefined string value. -/
def jsTruthyS (o : Option String) : Bool :=
  match o with
  | some s => s ≠ ""
  | none => false

/-- `Map.get`: first binding of the key in the association list. -/
def lookupAL {α : Type} : List (String × α) → String → Option α
  | [], _ => none
  | p :: rest, k => if p.1 = k then some p.2 else lookupAL rest k

/-- `Map.set`: replace the existing binding in place, else append. -/
def insertAL {α : Type} : List (String × α) → String → α → List (String × α)
  | [], k, v => [(k, v)]
  | p :: rest, k, v => if p.1 = k then (k, v) :: rest else p :: insertAL rest k v

/-- The context bag threaded through a pipeline run, with the fields the
core reads.  `none` models an absent (`undefined`) field. -/
structure Context where
  conversationId : Option String := none
  query : Option String := none
  filePath : Option String := none
  action : Option String := none
  command : Option String := none
  maxResults : Option Nat := none
deriving DecidableEq

/-- What an external tool implementation returns when its call completes:
`{success: bool, ...payload}` with the payload abstracted to a string. -/
structure ExtResult where
  success : Bool
  payload : String
deriving DecidableEq

/-- A tool dispatch outcome: either the external tool's own result object,
or the dispatcher's `{success:false, error, tool}` wrapper. -/
inductive ToolResult where
  | ext (r : ExtResult)
  | err (error : String) (tool : String)
deriving DecidableEq

/-- One `{tool, result}` record of the tool-call log. -/
structure ToolCall where
  tool : String
  result : ToolResult
deriving DecidableEq

/-- The Analysis record.  The throw branch of `analyzeTask` leaves
`estimatedSteps` absent and sets `error`; the parse-failure branch keeps the
raw completion text in `rawAnalysis`. -/
structure Analysis where
  taskType : String
  requiredTools : List String
  complexity : String
  estimatedSteps : Option (List String) := none
  rawAnalysis : Option String := none
  error : Option String := none
deriving DecidableEq

/-- The Plan record of `createExecutionPlan`. -/
structure Plan where
  steps : String
  requiredTools : List String
  complexity : String
  error : Option String := none
deriving DecidableEq

/-- The Execution record of `executePlan`. -/
structure Execution where
  results : List ToolResult
  toolCalls : List ToolCall
  status : String
  error : Option String := none
deriving DecidableEq

/-- An agent record as stored by `createAgent`.  `updated` is absent until
the first successful `updateAgent` call. -/
structure Agent where
  id : String
  name : String
  description : Option String
  capabilities : List String
  systemPrompt : String
  tools : List String
  personality : String
  memory : Bool
  max_tokens : Nat
  temperature : ℚ
  created : String
  conversations : List String
  status : String
  updated : Option String := none
deriving DecidableEq

/-- A conversation turn: `toolCalls` is only present on assistant turns. -/
structure Message where
  role : String
  content : String
  toolCalls : Option (List ToolCall) := none
  timestamp : String
deriving DecidableEq

/-- A conversation of the Conversation Store. -/
structure Conversation where
  id : String
  agentId : String
  messages : List Message
  created : String
deriving DecidableEq

/-- The mutable state of one `AgentSDK` instance: the Agent Registry and
the Conversation Store (two insertion-ordered maps). -/
structure AgentSDKState where
  agents : List (String × Agent)
  conversations : List (String × Conversation)
deriving DecidableEq

/-- The empty state the `AgentSDK` constructor builds. -/
def initialAgentSDKState : AgentSDKState := { agents := [], conversations := [] }

/-- The oracles for the external collaborators of one pipeline run. -/
structure PipelineEnv where
  comp : Nat → Except String String
  parse : String → Option Analysis
  toolExt : String → Context → Except String ExtResult

/-- The keys of the fixed Tool Registry built by `initializeTools`. -/
def registryKeys : List String := ["web_search", "file_search", "computer_use"]

/-- The per-tool guard on the context bag that `executeTool` checks before
dispatching to the external tool. -/
def toolCtxReady (toolName : String) (ctx : Context) : Bool :=
  if toolName = "web_search" then jsTruthyS ctx.query
  else if toolName = "file_search" then jsTruthyS ctx.filePath && jsTruthyS ctx.query
  else if toolName = "computer_use" then jsTruthyS ctx.action || jsTruthyS ctx.command
  else false

/-- The `{success:false, error, tool}` value for a tool whose required
context fields are missing. -/
def missingCtxResult (toolName : String) : ToolResult :=
  ToolResult.err ("Tool " ++ toolName ++ " requires additional context") toolName

/-- `executeTool`: look the tool up, check its required context fields,
dispatch to the external implementation, and catch every failure into a
`{success:false, error, tool}` result — nothing is thrown past this
boundary. -/
def executeTool (env : PipelineEnv) (toolName : String) (ctx : Context) : ToolResult :=
  if registryKeys.contains toolName then
    if toolCtxReady toolName ctx then
      match env.toolExt toolName ctx with
      | Except.ok r => ToolResult.ext r
      | Except.error e => ToolResult.err e toolName
    else missingCtxResult toolName
  else ToolResult.err ("Tool not found: " ++ toolName) toolName

/-- `executePlan`: dispatch each required tool that exists in the registry,
collecting every result; the loop itself cannot throw, so the status is
always `completed`. -/
def executePlan (env : PipelineEnv) (plan : Plan) (ctx : Context) : Execution :=
  let toolCalls := (plan.requiredTools.filter (fun t => registryKeys.contains t)).map
      (fun t => { tool := t, result := executeTool env t ctx : ToolCall })
  { results := toolCalls.map ToolCall.result
    toolCalls := toolCalls
    status := "completed"
    error := none }

/-- `analyzeTask`: one completion call (index 0).  A throw yields the
`unknown` error Analysis; unparseable output yields the deterministic
`general`/`medium` fallback with the agent's full declared tool list. -/
def analyzeTask (env : PipelineEnv) (agent : Agent) (task : String) (ctx : Context) :
    Analysis :=
  match env.comp 0 with
  | Except.error e =>
      { taskType := "unknown", requiredTools := [], complexity := "unknown"
        estimatedSteps := none, rawAnalysis := none, error := some e }
  | Except.ok content =>
      match env.parse content with
      | some a => a
      | none =>
          { taskType := "general", requiredTools := agent.tools, complexity := "medium"
            estimatedSteps := some ["Analyze task", "Execute", "Respond"]
            rawAnalysis := some content, error := none }

/-- The fallback Plan text substituted when plan generation fails. -/
def fallbackPlanText (task : String) : String :=
  "1. Analyze the task: \"" ++ (task ++
    "\"\n2. Execute appropriate actions\n3. Provide results")

/-- `createExecutionPlan`: one completion call (index 1); on a throw the
fallback Plan text with an empty required-tools list is substituted. -/
def createExecutionPlan (env : PipelineEnv) (task : String) (analysis : Analysis) :
    Plan :=
  match env.comp 1 with
  | Except.ok content =>
      { steps := content, requiredTools := analysis.requiredTools
        complexity := jsOrStr analysis.complexity "medium", error := none }
  | Except.error e =>
      { steps := fallbackPlanText task, requiredTools := []
        complexity := "unknown", error := some e }

/-- The templated apology `generateFinalResponse` substitutes when the final
completion call fails; it embeds the original task verbatim. -/
def apologyText (task e : String) : String :=
  "I completed the task \"" ++ (task ++
    ("\" but encountered an error generating the response: " ++ e))

/-- `generateFinalResponse`: one completion call (index 2); on a throw the
templated apology is substituted. -/
def generateFinalResponse (env : PipelineEnv) (task : String) : String :=
  match env.comp 2 with
  | Except.ok content => content
  | Except.error e => apologyText task e

/-- The success bundle of a task run. -/
structure TaskSuccess where
  agentId : String
  agentName : String
  task : String
  analysis : Analysis
  plan : Plan
  execution : Execution
  response : String
  toolCalls : List ToolCall
  timestamp : String
deriving DecidableEq

/-- `processAgentTask`: the four stages in sequence.  Every stage recovers
its own failures with a deterministic substitute, so the run always
produces a success bundle. -/
def processAgentTask (env : PipelineEnv) (agent : Agent) (task : String)
    (ctx : Context) (now : String) : TaskSuccess :=
  let analysis := analyzeTask env agent task ctx
  let plan := createExecutionPlan env task analysis
  let execution := executePlan env plan ctx
  let response := generateFinalResponse env task
  { agentId := agent.id, agentName := agent.name, task := task
    analysis := analysis, plan := plan, execution := execution
    response := response, toolCalls := execution.toolCalls, timestamp := now }

/-- What `executeAgent` returns to the caller: the success bundle, or the
`{success:false, error, agentId, task}` record from the top-level catch. -/
inductive ExecResult where
  | ok (r : TaskSuccess)
  | fail (error : String) (agentId : String) (task : String)
deriving DecidableEq

/-- The `success` boolean of an `executeAgent` result. -/
def ExecResult.success : ExecResult → Bool
  | ExecResult.ok _ => true
  | ExecResult.fail _ _ _ => false

/-- `executeAgent`: resolve the agent (throwing into the top-level catch if
absent), resolve or create the conversation, process the task, and append
exactly one user turn and one assistant turn.  `newConvId` and `now` stand
for the fresh uuid and the current timestamp. -/
def executeAgent (env : PipelineEnv) (st : AgentSDKState) (agentId task : String)
    (ctx : Context) (newConvId now : String) : AgentSDKState × ExecResult :=
  match lookupAL st.agents agentId with
  | none => (st, ExecResult.fail "Agent not found" agentId task)
  | some agent =>
    let convId := jsOrOpt ctx.conversationId newConvId
    let conv0 :=
      match lookupAL st.conversations convId with
      | some c => c
      | none => { id := convId, agentId := agentId, messages := [], created := now }
    let r := processAgentTask env agent task ctx now
    let conv1 := { conv0 with messages := conv0.messages ++
        [ { role := "user", content := task, toolCalls := none, timestamp := now },
          { role := "assistant", content := r.response, toolCalls := some r.toolCalls,
            timestamp := now } ] }
    ({ st with conversations := insertAL st.conversations convId conv1 },
      ExecResult.ok r)

/-- The five-directive default system prompt `generateDefaultSystemPrompt`
synthesizes from name, description and capabilities. -/
def generateDefaultSystemPrompt (name : String) (description : Option String)
    (capabilities : List String) : String :=
  "You are " ++ name ++ ", an AI agent. " ++
    (jsOrOpt description "You are designed to be helpful and efficient.") ++
    "\n\nYour capabilities include: " ++ (String.intercalate ", " capabilities) ++
    ".\n\nYou should:\n1. Think step by step about each task\n" ++
    "2. Use available tools when appropriate\n3. Provide clear, helpful responses\n" ++
    "4. Be accurate and reliable\n5. Ask for clarification when needed\n\n" ++
    "Always maintain a professional and helpful demeanor while completing tasks efficiently."

/-- A `createAgent` configuration, with the destructuring defaults of the
source.  An absent string field is `none`; an absent name is `""` (both are
falsy in JS and rejected the same way). -/
structure AgentConfig where
  name : String
  description : Option String := none
  capabilities : List String := []
  systemPrompt : Option String := none
  tools : List String := []
  personality : String := "helpful"
  memory : Bool := true
  max_tokens : Nat := 2000
  temperature : ℚ := 7 / 10
deriving DecidableEq

/-- The public agent summary `createAgent` returns. -/
structure AgentPublic where
  id : String
  name : String
  description : Option String
  capabilities : List String
  tools : List String
  created : String
deriving DecidableEq

/-- Result of `createAgent`. -/
inductive CreateResult where
  | ok (agent : AgentPublic)
  | fail (error : String)
deriving DecidableEq

/-- `createAgent`: reject a falsy name, otherwise store a fresh agent with
status `active` and an empty `conversations` list.  `newId` and `now` stand
for the fresh uuid and the current timestamp. -/
def createAgent (st : AgentSDKState) (cfg : AgentConfig) (newId now : String) :
    AgentSDKState × CreateResult :=
  if cfg.name = "" then (st, CreateResult.fail "Agent name is required")
  else
    let agent : Agent :=
      { id := newId, name := cfg.name, description := cfg.description
        capabilities := cfg.capabilities
        systemPrompt := jsOrOpt cfg.systemPrompt
          (generateDefaultSystemPrompt cfg.name cfg.description cfg.capabilities)
        tools := cfg.tools, personality := cfg.personality, memory := cfg.memory
        max_tokens := cfg.max_tokens, temperature := cfg.temperature
        created := now, conversations := [], status := "active", updated := none }
    ({ st with agents := insertAL st.agents newId agent },
      CreateResult.ok
        { id := newId, name := cfg.name, description := cfg.description
          capabilities := cfg.capabilities, tools := cfg.tools, created := now })

/-- One element of the `listAgents` summary list. -/
structure AgentSummary where
  id : String
  name : String
  description : Option String
  capabilities : List String
  tools : List String
  status : String
  created : String
  conversationCount : Nat
deriving DecidableEq

/-- The summary `listAgents` derives from one stored agent. -/
def agentSummary (a : Agent) : AgentSummary :=
  { id := a.id, name := a.name, description := a.description
    capabilities := a.capabilities, tools := a.tools, status := a.status
    created := a.created, conversationCount := a.conversations.length }

/-- What `listAgents` returns. -/
structure ListAgentsResult where
  agents : List AgentSummary
  total : Nat
  availableTools : List String
deriving DecidableEq

/-- `listAgents`: summarize every stored agent. -/
def listAgents (st : AgentSDKState) : ListAgentsResult :=
  let l := st.agents.map (fun p => agentSummary p.2)
  { agents := l, total := l.length, availableTools := registryKeys }

/-- An `updateAgent` partial-update object.  A field is `some v` when the
caller supplied it.  Besides the seven allow-listed keys it carries the
stored-agent keys a caller could also supply (`id`, `name`, `created`,
`status`, `memory`, `updated`), which the update loop ignores. -/
structure AgentUpdates where
  description : Option String := none
  capabilities : Option (List String) := none
  systemPrompt : Option String := none
  tools : Option (List String) := none
  personality : Option String := none
  max_tokens : Option Nat := none
  temperature : Option ℚ := none
  id : Option String := none
  name : Option String := none
  created : Option String := none
  status : Option String := none
  memory : Option Bool := none
  updated : Option String := none
deriving DecidableEq

/-- The update loop of `updateAgent`: apply exactly the allow-listed fields
`description`, `capabilities`, `systemPrompt`, `tools`, `personality`,
`max_tokens`, `temperature`; every other supplied key is skipped. -/
def applyAgentUpdates (a : Agent) (u : AgentUpdates) : Agent :=
  { a with
    description := (u.description.map some).getD a.description
    capabilities := u.capabilities.getD a.capabilities
    systemPrompt := u.systemPrompt.getD a.systemPrompt
    tools := u.tools.getD a.tools
    personality := u.personality.getD a.personality
    max_tokens := u.max_tokens.getD a.max_tokens
    temperature := u.temperature.getD a.temperature }

/-- Result of `updateAgent`: `{success:true, agent:{id, updated}}` or
`{success:false, error}`. -/
inductive UpdateResult where
  | ok (id : String) (updated : String)
  | fail (error : String)
deriving DecidableEq

/-- `updateAgent`: not-found on an unknown id; otherwise apply the
allow-listed fields, refresh the `updated` timestamp and store the agent
back under the same id. -/
def updateAgent (st : AgentSDKState) (agentId : String) (u : AgentUpdates)
    (now : String) : AgentSDKState × UpdateResult :=
  match lookupAL st.agents agentId with
  | none => (st, UpdateResult.fail "Agent not found")
  | some a =>
    let a2 := { applyAgentUpdates a u with updated := some now }
    ({ st with agents := insertAL st.agents agentId a2 }, UpdateResult.ok agentId now)

/-- JS `\w`: ASCII letters, digits and underscore (codepoint form). -/
def isWordCharN (n : Nat) : Bool :=
  (48 ≤ n && n ≤ 57) || (65 ≤ n && n ≤ 90) || (97 ≤ n && n ≤ 122) || n == 95

/-- JS `\w` on a character. -/
def isWordChar (c : Char) : Bool := isWordCharN c.toNat

/-- ASCII lower-casing on codepoints, for the `i` regex flag (all pattern
alternatives and the claimed inputs are ASCII). -/
def lowerN (n : Nat) : Nat := if 65 ≤ n && n ≤ 90 then n + 32 else n

/-- Case-insensitive character comparison. -/
def ciEqChar (a b : Char) : Bool := lowerN a.toNat == lowerN b.toNat

/-- `alt` is a case-insensitive prefix of `s`. -/
def ciStarts : List Char → List Char → Bool
  | [], _ => true
  | _ :: _, [] => false
  | a :: as, b :: bs => ciEqChar a b && ciStarts as bs

/-- Word-char test of the character left or right of a position; a string
edge counts as a non-word character. -/
def owc : Option Char → Bool
  | none => false
  | some c => isWordChar c

/-- One alternative of a `\b(…|…)\b` pattern matches at the position whose
left neighbour is `prev` and whose remaining input is `rest`: the
alternative is a case-insensitive prefix of `rest` and a word boundary
holds on both sides.  Case folding preserves word-char-ness, so testing the
boundary on the alternative's own edge characters is exact. -/
def altAt (alt : List Char) (prev : Option Char) (rest : List Char) : Bool :=
  match alt with
  | [] => false
  | a :: as =>
    ciStarts (a :: as) rest &&
    (owc prev != isWordChar a) &&
    (isWordChar (List.getLastD (a :: as) a) != owc (List.head? (rest.drop (a :: as).length)))

/-- Scan every position of the input for a match of some alternative. -/
def scanFrom (alts : List (List Char)) : Option Char → List Char → Bool
  | _, [] => false
  | prev, c :: cs => alts.any (fun alt => altAt alt prev (c :: cs)) || scanFrom alts (some c) cs

/-- `RegExp.test` of a case-insensitive `\b(alt|…|alt)\b` pattern. -/
def regexTest (alts : List String) (input : String) : Bool :=
  scanFrom (alts.map String.data) none input.data

/-- The alternatives of the triage history pattern. -/
def historyAlts : List String :=
  ["history", "historical", "when", "where", "who", "date", "year", "century",
   "war", "empire", "civilization", "ancient", "medieval", "renaissance",
   "revolution", "battle", "king", "queen", "president", "capital", "country",
   "nation"]

/-- The alternatives of the triage math pattern. -/
def mathAlts : List String :=
  ["solve", "calculate", "equation", "math", "algebra", "geometry",
   "trigonometry", "calculus", "+", "-", "*", "/", "=", "x", "y", "formula",
   "theorem", "proof", "derivative", "integral", "matrix", "vector"]

/-- The three-way routing decision of the triage fallback branch. -/
inductive TriageRoute where
  | history
  | math
  | generic
deriving DecidableEq

/-- The triage branch of `runFallbackAgent`: history-only routes to the
history specialist, math-only to the math specialist, everything else
(both, neither) to the generic assistant. -/
def triageClassify (input : String) : TriageRoute :=
  let isHistoryQuestion := regexTest historyAlts input
  let isMathQuestion := regexTest mathAlts input
  if isHistoryQuestion && !isMathQuestion then TriageRoute.history
  else if isMathQuestion && !isHistoryQuestion then TriageRoute.math
  else TriageRoute.generic

/-- Fallback system prompt of the history specialist. -/
def historyFallbackPrompt : String :=
  "You are an expert History Tutor. Provide detailed, accurate information about historical events, dates, people, and context. Explain things clearly and include interesting historical facts when relevant."

/-- Fallback system prompt of the math specialist. -/
def mathFallbackPrompt : String :=
  "You are an expert Math Tutor. Help solve math problems step by step. Show your work clearly, explain your reasoning, and provide examples when helpful. You can handle algebra, geometry, calculus, and other mathematical topics."

/-- Triage-routed history specialist prompt. -/
def triageHistoryPrompt : String :=
  "You are a History Tutor. The Triage Agent has routed this history question to you. Provide detailed, accurate information about historical events, dates, people, and context."

/-- Triage-routed math specialist prompt. -/
def triageMathPrompt : String :=
  "You are a Math Tutor. The Triage Agent has routed this math question to you. Help solve the problem step by step, show your work clearly, and explain your reasoning."

/-- Triage generic assistant prompt (the ambiguity-flagging branch). -/
def triageGenericPrompt : String :=
  "You are a helpful general assistant. The Triage Agent determined this question doesn\x27t clearly fit history or math categories, so provide a helpful general response. If the question seems to relate to history or math, mention that and provide appropriate guidance."

/-- Prompt of the default (unknown agent type) fallback branch. -/
def customFallbackPrompt : String :=
  "You are a helpful AI assistant. Provide accurate, detailed responses to user questions."

/-- The `(agentName, systemPrompt)` pair the `runFallbackAgent` switch picks
for an agent type and input. -/
def fallbackPersona (agentType input : String) : String × String :=
  if agentType = "history" then ("History Tutor", historyFallbackPrompt)
  else if agentType = "math" then ("Math Tutor", mathFallbackPrompt)
  else if agentType = "triage" then
    match triageClassify input with
    | TriageRoute.history => ("History Tutor (via Triage)", triageHistoryPrompt)
    | TriageRoute.math => ("Math Tutor (via Triage)", triageMathPrompt)
    | TriageRoute.generic => ("General Assistant (via Triage)", triageGenericPrompt)
  else ("Custom Agent", customFallbackPrompt)

/-- What `ResponsesAPI.chat` returns (the fields the fallback reads). -/
structure ChatResult where
  success : Bool
  response : Option String := none
  error : Option String := none
deriving DecidableEq

/-- `ResponsesAPI.chat`: one completion call, catching a throw into
`{success:false, error}`.  `comp` is the completion client's outcome for
this single call (the returned message content, or the thrown message). -/
def chat (comp : Except String String) (message systemPrompt : String) : ChatResult :=
  match comp with
  | Except.ok content => { success := true, response := some content, error := none }
  | Except.error e => { success := false, response := none, error := some e }

/-- A result of `runAgent` / `runFallbackAgent`:
`{success:true, output, finalAgent, handoffs, toolsUsed}` or
`{success:false, error}`. -/
inductive RunResult where
  | ok (output : String) (finalAgent : Option String) (handoffs : List String)
      (toolsUsed : List String)
  | fail (error : String)
deriving DecidableEq

/-- The error message of `runFallbackAgent`'s catch when the chat call did
not produce a truthy response text. -/
def fallbackFailMsg : String :=
  "Fallback agent failed: Failed to get response from fallback implementation"

/-- `runFallbackAgent`: pick the persona, make one chat call, and succeed
only when the chat reports success AND its response text is truthy; every
other outcome becomes the catch's `{success:false, error}`. -/
def runFallbackAgent (comp : Except String String) (agentType input : String) :
    RunResult :=
  let p := fallbackPersona agentType input
  let response := chat comp input p.2
  if response.success && jsTruthyS response.response then
    RunResult.ok (response.response.getD "") (some p.1)
      (if agentType = "triage" then [p.1] else []) []
  else RunResult.fail fallbackFailMsg

/-- A custom agent stored by `createCustomAgent`. -/
structure CustomAgent where
  name : String
  instructions : String
  model : String
deriving DecidableEq

/-- The mutable state of one `OpenAIAgentsSDK` instance: the sticky
fallback flag and the custom-agent map (the three predefined agents are
fixed by the constructor and carried implicitly). -/
structure OASState where
  useFallback : Bool
  customAgents : List (String × CustomAgent)
deriving DecidableEq

/-- The state the `OpenAIAgentsSDK` constructor builds. -/
def OASState.init : OASState := { useFallback := false, customAgents := [] }

/-- The predefined agent types registered by `initializeDefaultAgents`. -/
def predefinedTypes : List String := ["history", "math", "triage"]

/-- `parseInt` restricted to what `runAgent` can feed it (a piece of an id
split on `-`, so no minus sign): skip blanks, accept an optional plus sign,
then read the leading decimal digits; no digits means `NaN` (`none`). -/
def parseLeadingInt (s : String) : Option Nat :=
  let t := s.data.dropWhile (fun c => c = ' ')
  let t := match t with
    | '+' :: rest => rest
    | _ => t
  let ds := t.takeWhile (fun c => c.isDigit)
  if ds.isEmpty then none
  else some (ds.foldl (fun n c => n * 10 + (c.toNat - 48)) 0)

/-- Whether the try block of `runAgent` resolves an agent for this type
(otherwise it throws into the catch): a `custom-` id must index into the
custom list, any other type must be predefined. -/
def resolveOk (st : OASState) (agentType : String) : Bool :=
  if agentType.startsWith "custom-" then
    match parseLeadingInt (((agentType.splitOn "-").getD 1 "")) with
    | some i => i < st.customAgents.length
    | none => false
  else predefinedTypes.contains agentType

/-- What the external `run(agent, input)` of the official SDK yields when
it does not throw. -/
structure PrimaryResult where
  finalOutput : String
  finalAgent : Option String := none
  handoffs : Option (List String) := none
  toolsUsed : Option (List String) := none

/-- `runAgent`: with the sticky flag set, go straight to the fallback; else
resolve the agent and run the primary path (`primary` is the external SDK
call's outcome).  Any throw — unknown agent type or primary failure — sets
the sticky flag and reruns through the fallback. -/
def runAgent (primary : Except String PrimaryResult) (comp : Except String String)
    (st : OASState) (agentType input : String) : OASState × RunResult :=
  if st.useFallback then (st, runFallbackAgent comp agentType input)
  else if resolveOk st agentType then
    match primary with
    | Except.ok r =>
        (st, RunResult.ok r.finalOutput r.finalAgent (r.handoffs.getD [])
          (r.toolsUsed.getD []))
    | Except.error _e =>
        ({ st with useFallback := true }, runFallbackAgent comp agentType input)
  else ({ st with useFallback := true }, runFallbackAgent comp agentType input)

/-!  Concrete fixtures used by witnesses and counterexamples. -/

/-- A concrete stored agent: one registered tool and one undeclared name in
its tool list. -/
def agentA : Agent :=
  { id := "a1", name := "A", description := some "d", capabilities := ["c"]
    systemPrompt := "p", tools := ["web_search", "nonexistent_tool"]
    personality := "helpful", memory := true, max_tokens := 2000
    temperature := 7 / 10, created := "t0", conversations := [], status := "active" }

/-- A registry state holding exactly `agentA` and no conversations. -/
def stA : AgentSDKState := { agents := [("a1", agentA)], conversations := [] }

/-- A concrete stored agent that has already been updated once
(`updated = some "T0"`). -/
def agentB : Agent :=
  { id := "b1", name := "B", description := none, capabilities := []
    systemPrompt := "p", tools := [], personality := "helpful", memory := true
    max_tokens := 2000, temperature := 7 / 10, created := "t0"
    conversations := [], status := "active", updated := some "T0" }

/-- A registry state holding exactly `agentB`. -/
def stB : AgentSDKState := { agents := [("b1", agentB)], conversations := [] }

/-- An environment in which every external call throws: every completion
call fails with "boom", JSON.parse always throws, every tool call fails
with "down". -/
def throwEnv : PipelineEnv :=
  { comp := fun _ => Except.error "boom", parse := fun _ => none
    toolExt := fun _ _ => Except.error "down" }

/-- The empty context bag. -/
def ctx0 : Context := {}

/-- A context bag that names conversation `c9`. -/
def ctxC9 : Context := { conversationId := some "c9" }

/-- The `analysis.taskType` of a run result, when the run succeeded. -/
def execTaskType : ExecResult → Option String
  | ExecResult.ok r => some r.analysis.taskType
  | ExecResult.fail _ _ _ => none

/-- The `analysis.complexity` of a run result, when the run succeeded. -/
def execComplexity : ExecResult → Option String
  | ExecResult.ok r => some r.analysis.complexity
  | ExecResult.fail _ _ _ => none

/-- The conversation store's message list under a conversation id (empty
when the conversation does not exist yet). -/
def convMessages (st : AgentSDKState) (cid : String) : List Message :=
  match lookupAL st.conversations cid with
  | some c => c.messages
  | none => []

/-- Specification instance for one `executeAgent` call whose agent id
resolves: the run returns a success bundle, the resolved conversation gains
exactly one user turn and one assistant turn (in that order, carrying the
task, the response and the tool-call log), and every other conversation is
untouched. -/
def RunTurnsSpec (env : PipelineEnv) (st : AgentSDKState) (agentId task : String)
    (ctx : Context) (newConvId now : String) : Prop :=
  ∃ r : TaskSuccess,
    (executeAgent env st agentId task ctx newConvId now).2 = ExecResult.ok r ∧
    ((executeAgent env st agentId task ctx newConvId now).2).success = true ∧
    (lookupAL ((executeAgent env st agentId task ctx newConvId now).1).conversations
        (jsOrOpt ctx.conversationId newConvId)).map Conversation.messages
      = some (convMessages st (jsOrOpt ctx.conversationId newConvId) ++
          [{ role := "user", content := task, toolCalls := none, timestamp := now },
           { role := "assistant", content := r.response, toolCalls := some r.toolCalls,
             timestamp := now }]) ∧
    (∀ cid, cid ≠ jsOrOpt ctx.conversationId newConvId →
      lookupAL ((executeAgent env st agentId task ctx newConvId now).1).conversations cid
        = lookupAL st.conversations cid)

/-- Specification instance for one `executeAgent` run during which every
completion call throws (`err n` being the n-th thrown message): the run
still succeeds, with the error Analysis of `analyzeTask`'s catch, the
fallback Plan text, no tool calls, and the templated apology embedding the
original task verbatim. -/
def AllThrowRunSpec (env : PipelineEnv) (st : AgentSDKState) (agentId task : String)
    (ctx : Context) (newConvId now : String) (err : Nat → String) : Prop :=
  ∃ r : TaskSuccess,
    (executeAgent env st agentId task ctx newConvId now).2 = ExecResult.ok r ∧
    ((executeAgent env st agentId task ctx newConvId now).2).success = true ∧
    r.analysis.taskType = "unknown" ∧
    r.analysis.complexity = "unknown" ∧
    r.analysis.requiredTools = [] ∧
    r.analysis.error = some (err 0) ∧
    r.plan.steps = fallbackPlanText task ∧
    r.plan.requiredTools = [] ∧
    r.execution.toolCalls = [] ∧
    r.execution.status = "completed" ∧
    r.response = apologyText task (err 2) ∧
    (∃ pre post, r.response = pre ++ (task ++ post))

/-!  Theorems. -/

theorem lookupAL_insertAL_self {α : Type} (m : List (String × α)) (k : String) (v : α) :
    lookupAL (insertAL m k v) k = some v := by
  induction m with
  | nil => simp [insertAL, lookupAL]
  | cons p rest ih =>
    by_cases h : p.1 = k
    · simp [insertAL, lookupAL, h]
    · simp [insertAL, lookupAL, h, ih]

theorem lookupAL_insertAL_ne {α : Type} (m : List (String × α)) (k k' : String) (v : α)
    (h : k' ≠ k) : lookupAL (insertAL m k v) k' = lookupAL m k' := by
  have hkk : ¬k = k' := fun e => h e.symm
  induction m with
  | nil => simp [insertAL, lookupAL, hkk]
  | cons p rest ih =>
    by_cases hp : p.1 = k
    · have hpk : ¬p.1 = k' := hp ▸ hkk
      simp [insertAL, lookupAL, hp, hkk, hpk]
    · simp [insertAL, lookupAL, hp, ih]

theorem containsS_iff (l : List String) (t : String) :
    l.contains t = true ↔ t ∈ l := by
  induction l with
  | nil => simp
  | cons a rest ih => simp [List.contains, ih]

/-- Claim C5: an `executeAgent` call whose agent id is not in the Agent
Registry returns `{success:false, error:"Agent not found", agentId, task}`
and leaves the state — in particular the Conversation Store — completely
unchanged: no conversation is created and no turn is appended. -/
theorem executeAgent_unknown_agent (env : PipelineEnv) (st : AgentSDKState)
    (agentId task : String) (ctx : Context) (newConvId now : String)
    (h : lookupAL st.agents agentId = none) :
    executeAgent env st agentId task ctx newConvId now
      = (st, ExecResult.fail "Agent not found" agentId task) := by
  simp [executeAgent, h]

/-- Witness for C5 at a concrete input: agent id `zz` is not registered in
`stA`, and the call fails without touching the state. -/
theorem executeAgent_unknown_agent_witness :
    executeAgent throwEnv stA "zz" "t" ctx0 "c0" "t1"
      = (stA, ExecResult.fail "Agent not found" "zz" "t") :=
  executeAgent_unknown_agent throwEnv stA "zz" "t" ctx0 "c0" "t1" rfl

/-- Claim C10: in `runFallbackAgent` a completion call that succeeds with
an empty response text is reported as `{success:false, error}` — the
success branch requires the response text itself to be truthy, not just
the chat's success flag.  This holds for every agent type and input. -/
theorem emptyFallbackResponse_fails (agentType input : String) :
    runFallbackAgent (Except.ok "") agentType input
      = RunResult.fail fallbackFailMsg := by
  simp [runFallbackAgent, chat, jsTruthyS]

/-- Claim C3: the sticky fallback flag.  (1) It starts false.  (2) With the
flag clear, a throwing primary path — unresolvable agent type or failing
external run — sets it.  (3) With the flag set, `runAgent` for any agent
type is exactly `runFallbackAgent`, independent of the primary dependency
(which could now succeed), and the state — hence the flag — is unchanged.
(4) With the flag set, a failing fallback completion call is reported as
`{success:false, error}` with the flag still unchanged. -/
theorem stickyFallback_spec :
    (OASState.init.useFallback = false) ∧
    (∀ primary comp st ty inp e, st.useFallback = false →
        primary = Except.error e →
        ((runAgent primary comp st ty inp).1).useFallback = true) ∧
    (∀ primary comp st ty inp, st.useFallback = false → resolveOk st ty = false →
        ((runAgent primary comp st ty inp).1).useFallback = true) ∧
    (∀ primary comp st ty inp, st.useFallback = true →
        runAgent primary comp st ty inp = (st, runFallbackAgent comp ty inp)) ∧
    (∀ primary comp st ty inp e, st.useFallback = true → comp = Except.error e →
        runAgent primary comp st ty inp = (st, RunResult.fail fallbackFailMsg)) := by
  refine ⟨rfl, ?_, ?_, ?_, ?_⟩
  · intro primary comp st ty inp e h hp
    subst hp
    by_cases hr : resolveOk st ty <;> simp [runAgent, h, hr]
  · intro primary comp st ty inp h hr
    simp [runAgent, h, hr]
  · intro primary comp st ty inp h
    simp [runAgent, h]
  · intro primary comp st ty inp e h hc
    subst hc
    simp [runAgent, h, runFallbackAgent, chat, jsTruthyS]

set_option maxRecDepth 4096 in
/-- Claim C4: the triage fallback's routing decision table.  The input
"What year did World War II end?" matches the history pattern only and is
routed to the history specialist prompt; "Solve for x: 2x + 4 = 10" matches
the math pattern only and is routed to the math specialist prompt;
"Tell me a joke" matches neither and gets the generic assistant prompt;
and every input matching both patterns also lands in the generic branch. -/
theorem triage_routing_spec :
    (regexTest historyAlts "What year did World War II end?" = true) ∧
    (regexTest mathAlts "What year did World War II end?" = false) ∧
    (triageClassify "What year did World War II end?" = TriageRoute.history) ∧
    (fallbackPersona "triage" "What year did World War II end?"
      = ("History Tutor (via Triage)", triageHistoryPrompt)) ∧
    (regexTest mathAlts "Solve for x: 2x + 4 = 10" = true) ∧
    (regexTest historyAlts "Solve for x: 2x + 4 = 10" = false) ∧
    (triageClassify "Solve for x: 2x + 4 = 10" = TriageRoute.math) ∧
    (fallbackPersona "triage" "Solve for x: 2x + 4 = 10"
      = ("Math Tutor (via Triage)", triageMathPrompt)) ∧
    (regexTest historyAlts "Tell me a joke" = false) ∧
    (regexTest mathAlts "Tell me a joke" = false) ∧
    (triageClassify "Tell me a joke" = TriageRoute.generic) ∧
    (fallbackPersona "triage" "Tell me a joke"
      = ("General Assistant (via Triage)", triageGenericPrompt)) ∧
    (∀ s, regexTest historyAlts s = true → regexTest mathAlts s = true →
        triageClassify s = TriageRoute.generic ∧
        fallbackPersona "triage" s
          = ("General Assistant (via Triage)", triageGenericPrompt)) := by
  refine ⟨by decide, by decide, by decide, by decide, by decide, by decide, by decide,
    by decide, by decide, by decide, by decide, by decide, ?_⟩
  intro s h1 h2
  constructor
  · simp [triageClassify, h1, h2]
  · simp [fallbackPersona, triageClassify, h1, h2]

/-- Claim C9: the tool dispatcher never lets a failure escape: an
unregistered name, a registered tool whose required context fields are
absent (query for web_search; filePath and query for file_search; action or
command for computer_use), and a throwing external tool call all come back
as a `{success:false, error, tool:<name>}` result object; and one such
failure never aborts the dispatch of the other required tools — the
dispatched tool list of a plan is exactly its registered required tools,
whatever each individual call returned. -/
theorem executeTool_dispatch_contract :
    (∀ env t ctx, t ∉ registryKeys →
        executeTool env t ctx = ToolResult.err ("Tool not found: " ++ t) t) ∧
    (∀ env ctx, jsTruthyS ctx.query = false →
        executeTool env "web_search" ctx
          = ToolResult.err "Tool web_search requires additional context" "web_search") ∧
    (∀ env ctx, (jsTruthyS ctx.filePath && jsTruthyS ctx.query) = false →
        executeTool env "file_search" ctx
          = ToolResult.err "Tool file_search requires additional context" "file_search") ∧
    (∀ env ctx, (jsTruthyS ctx.action || jsTruthyS ctx.command) = false →
        executeTool env "computer_use" ctx
          = ToolResult.err "Tool computer_use requires additional context" "computer_use") ∧
    (∀ env t ctx e, t ∈ registryKeys → toolCtxReady t ctx = true →
        env.toolExt t ctx = Except.error e →
        executeTool env t ctx = ToolResult.err e t) ∧
    (∀ env plan ctx, ((executePlan env plan ctx).toolCalls).map ToolCall.tool
        = plan.requiredTools.filter (fun t => registryKeys.contains t)) := by
  refine ⟨?_, ?_, ?_, ?_, ?_, ?_⟩
  · intro env t ctx h
    simp [executeTool, h]
  · intro env ctx h
    simp [executeTool, toolCtxReady, registryKeys, missingCtxResult, h]
  · intro env ctx h
    simp only [executeTool, toolCtxReady, missingCtxResult]
    simp [registryKeys, h]
  · intro env ctx h
    simp only [executeTool, toolCtxReady, missingCtxResult]
    simp [registryKeys, h]
  · intro env t ctx e ht hr he
    simp [executeTool, ht, hr, he]
  · intro env plan ctx
    have hid : (ToolCall.tool ∘ fun t =>
        ({ tool := t, result := executeTool env t ctx } : ToolCall)) = fun t => t := by
      funext t
      rfl
    simp [executePlan, hid]

/-- Claim C8: a required tool name with no capability registered under that
exact name is skipped silently: a run whose agent resolves still succeeds,
every dispatched `{tool, result}` record belongs to a registered required
tool (so an unregistered name appears in neither `toolCalls` nor the
results, which are exactly the dispatched records' results), while every
registered required tool is dispatched and recorded even when its own
invocation reports failure, with the Execution status always
`completed`. -/
theorem unregistered_tools_skipped :
    (∀ env st agentId task ctx newConvId now,
        (lookupAL st.agents agentId).isSome →
        ((executeAgent env st agentId task ctx newConvId now).2).success = true) ∧
    (∀ env plan ctx, (executePlan env plan ctx).status = "completed") ∧
    (∀ env plan ctx, (executePlan env plan ctx).results
        = ((executePlan env plan ctx).toolCalls).map ToolCall.result) ∧
    (∀ env plan ctx c, c ∈ (executePlan env plan ctx).toolCalls →
        c.tool ∈ registryKeys ∧ c.tool ∈ plan.requiredTools) ∧
    (∀ env plan ctx t, t ∈ plan.requiredTools → t ∈ registryKeys →
        ∃ c, c ∈ (executePlan env plan ctx).toolCalls ∧ c.tool = t) := by
  refine ⟨?_, ?_, ?_, ?_, ?_⟩
  · intro env st agentId task ctx newConvId now h
    cases hl : lookupAL st.agents agentId with
    | none => rw [hl] at h; exact absurd h (by simp)
    | some agent => simp [executeAgent, hl, ExecResult.success]
  · intro env plan ctx
    rfl
  · intro env plan ctx
    rfl
  · intro env plan ctx c hc
    simp only [executePlan, List.mem_map, List.mem_filter] at hc
    obtain ⟨t, ⟨hmem, hreg⟩, rfl⟩ := hc
    exact ⟨by simpa using hreg, hmem⟩
  · intro env plan ctx t hmem hreg
    refine ⟨{ tool := t, result := executeTool env t ctx }, ?_, rfl⟩
    simp only [executePlan, List.mem_map, List.mem_filter]
    exact ⟨t, ⟨hmem, by simpa using hreg⟩, rfl⟩

/-- Counterexample to claim C7 as stated: `updated` is a supplied field
outside the allow-list, yet `updateAgent stB "b1" {updated := some "HACK"} "T1"`
does not leave the stored agent's `updated` value unchanged — it moves from
`some "T0"` to `some "T1"` (the unconditional timestamp refresh), so not
every non-allow-listed supplied field keeps its stored value. -/
theorem updateAgent_updated_counterexample :
    (lookupAL ((updateAgent stB "b1" { updated := some "HACK" } "T1").1).agents
        "b1").map Agent.updated = some (some "T1") ∧
    ((lookupAL ((updateAgent stB "b1" { updated := some "HACK" } "T1").1).agents
        "b1").map Agent.updated == some (some "T0")) = false := by
  constructor
  · rfl
  · rfl

/-- Claim C7 (amended): `updateAgent` with an unknown id fails with the
not-found error; for a known id exactly the allow-listed fields
{description, capabilities, systemPrompt, tools, personality, max_tokens,
temperature} are applied, every other supplied field (id, name, created,
status, memory, updated) is never given its supplied value, and the other
stored fields keep their values — except the `updated` timestamp, which is
refreshed to the current time by every successful update regardless of the
supplied fields. -/
theorem updateAgent_allowlist_spec :
    (∀ st id u now, lookupAL st.agents id = none →
        updateAgent st id u now = (st, UpdateResult.fail "Agent not found")) ∧
    (∀ st id a u now, lookupAL st.agents id = some a →
        lookupAL ((updateAgent st id u now).1).agents id
            = some { applyAgentUpdates a u with updated := some now } ∧
        (updateAgent st id u now).2 = UpdateResult.ok id now ∧
        (∀ k, k ≠ id → lookupAL ((updateAgent st id u now).1).agents k
            = lookupAL st.agents k)) ∧
    (∀ a u,
        (applyAgentUpdates a u).id = a.id ∧
        (applyAgentUpdates a u).name = a.name ∧
        (applyAgentUpdates a u).created = a.created ∧
        (applyAgentUpdates a u).status = a.status ∧
        (applyAgentUpdates a u).memory = a.memory ∧
        (applyAgentUpdates a u).conversations = a.conversations ∧
        (applyAgentUpdates a u).updated = a.updated ∧
        (applyAgentUpdates a u).description
          = (u.description.map some).getD a.description ∧
        (applyAgentUpdates a u).capabilities = u.capabilities.getD a.capabilities ∧
        (applyAgentUpdates a u).systemPrompt = u.systemPrompt.getD a.systemPrompt ∧
        (applyAgentUpdates a u).tools = u.tools.getD a.tools ∧
        (applyAgentUpdates a u).personality = u.personality.getD a.personality ∧
        (applyAgentUpdates a u).max_tokens = u.max_tokens.getD a.max_tokens ∧
        (applyAgentUpdates a u).temperature = u.temperature.getD a.temperature) := by
  refine ⟨?_, ?_, ?_⟩
  · intro st id u now h
    simp [updateAgent, h]
  · intro st id a u now h
    refine ⟨?_, ?_, ?_⟩
    · simp [updateAgent, h, lookupAL_insertAL_self]
    · simp [updateAgent, h]
    · intro k hk
      simp [updateAgent, h, lookupAL_insertAL_ne _ _ _ _ hk]
  · intro a u
    refine ⟨rfl, rfl, rfl, rfl, rfl, rfl, rfl, rfl, rfl, rfl, rfl, rfl, rfl, rfl⟩

/-- Counterexample to claim C6 as stated: a concrete run that uses
conversation `c9` with agent `a1` (the conversation exists in the store
afterwards), yet `c9` is not contained in the agent's `conversations` list
— the list is still empty — and `listAgents` reports `conversationCount`
0, not 1. -/
theorem agentConversations_counterexample :
    (lookupAL ((executeAgent throwEnv stA "a1" "do" ctxC9 "c0" "t1").1).conversations
        "c9").isSome = true ∧
    (lookupAL ((executeAgent throwEnv stA "a1" "do" ctxC9 "c0" "t1").1).agents
        "a1").map Agent.conversations = some [] ∧
    (((listAgents ((executeAgent throwEnv stA "a1" "do" ctxC9 "c0" "t1").1)).agents.map
        AgentSummary.conversationCount) = [0]) := by
  refine ⟨by decide, by decide, by decide⟩

/-- Claim C6 (amended): the agent record's `conversations` list is created
empty and nothing ever appends to it — `executeAgent` leaves the whole
agents map untouched — so after a run that uses conversation `c`, `c` is
not in the agent's list, and `listAgents` reports `conversationCount` as
the length of that never-growing list (0 for every agent made by
`createAgent`). -/
theorem agentConversations_never_appended :
    (∀ env st agentId task ctx newConvId now,
        ((executeAgent env st agentId task ctx newConvId now).1).agents
          = st.agents) ∧
    (∀ st cfg newId now, cfg.name ≠ "" →
        (lookupAL ((createAgent st cfg newId now).1).agents newId).map
            Agent.conversations = some []) ∧
    (∀ st, (listAgents st).agents = st.agents.map (fun p => agentSummary p.2)) ∧
    (∀ a, (agentSummary a).conversationCount = a.conversations.length) := by
  refine ⟨?_, ?_, ?_, ?_⟩
  · intro env st agentId task ctx newConvId now
    cases h : lookupAL st.agents agentId <;> simp [executeAgent, h]
  · intro st cfg newId now h
    simp [createAgent, h, lookupAL_insertAL_self]
  · intro st
    rfl
  · intro a
    rfl

/-- Claim C2: whenever the agent id resolves, `executeAgent` appends
exactly one user turn and one assistant turn to the resolved conversation
(existing or freshly created), leaves every other conversation unchanged,
and returns a structured success bundle — the processing stages all recover
their own failures, so no raw exception reaches the caller. -/
theorem executeAgent_appends_turns (env : PipelineEnv) (st : AgentSDKState)
    (agentId : String) (agent : Agent) (task : String) (ctx : Context)
    (newConvId now : String) (h : lookupAL st.agents agentId = some agent) :
    RunTurnsSpec env st agentId task ctx newConvId now := by
  unfold RunTurnsSpec
  refine ⟨processAgentTask env agent task ctx now, ?_, ?_, ?_, ?_⟩
  · simp [executeAgent, h]
  · simp [executeAgent, h, ExecResult.success]
  · simp only [executeAgent, h]
    rw [lookupAL_insertAL_self]
    cases hc : lookupAL st.conversations (jsOrOpt ctx.conversationId newConvId) <;>
      simp [convMessages, hc]
  · intro cid hcid
    simp only [executeAgent, h]
    exact lookupAL_insertAL_ne _ _ _ _ hcid

/-- Witness for C2 at a concrete input: a run of `agentA` against the
caller-supplied conversation id `c9`. -/
theorem executeAgent_appends_turns_witness :
    RunTurnsSpec throwEnv stA "a1" "do" ctxC9 "c0" "t1" :=
  executeAgent_appends_turns throwEnv stA "a1" agentA "do" ctxC9 "c0" "t1" rfl

/-- Counterexample to claim C1 as stated: in a concrete run in which every
completion call throws (`throwEnv.comp` is constantly `Except.error
"boom"`), the returned analysis is the `analyzeTask` catch value with
`taskType = "unknown"` and `complexity = "unknown"` — not the deterministic
fallback Analysis with `taskType "general"` / `complexity "medium"`, which
the code only substitutes when the completion call succeeds but its output
fails to parse. -/
theorem allThrow_analysis_counterexample :
    execTaskType ((executeAgent throwEnv stA "a1" "ping" ctx0 "c0" "t1").2)
      = some "unknown" ∧
    (execTaskType ((executeAgent throwEnv stA "a1" "ping" ctx0 "c0" "t1").2)
      == some "general") = false ∧
    execComplexity ((executeAgent throwEnv stA "a1" "ping" ctx0 "c0" "t1").2)
      = some "unknown" ∧
    (execComplexity ((executeAgent throwEnv stA "a1" "ping" ctx0 "c0" "t1").2)
      == some "medium") = false := by
  refine ⟨by decide, by decide, by decide, by decide⟩

/-- Claim C1 (amended): when every Completion Client call of a run throws,
`executeAgent` still returns `success:true`; the analysis is the error
Analysis of `analyzeTask`'s catch (`taskType "unknown"`, `complexity
"unknown"`, empty required tools — not the `"general"`/`"medium"` parse
fallback), the plan is the fallback Plan text, no tool is dispatched, and
the response is the templated apology containing the original task
verbatim. -/
theorem allThrow_run (env : PipelineEnv) (st : AgentSDKState)
    (agentId : String) (agent : Agent) (task : String) (ctx : Context)
    (newConvId now : String) (err : Nat → String)
    (hA : lookupAL st.agents agentId = some agent)
    (hC : ∀ n, env.comp n = Except.error (err n)) :
    AllThrowRunSpec env st agentId task ctx newConvId now err := by
  unfold AllThrowRunSpec
  refine ⟨processAgentTask env agent task ctx now, by simp [executeAgent, hA],
    by simp [executeAgent, hA, ExecResult.success], ?_, ?_, ?_, ?_, ?_, ?_, ?_, ?_, ?_, ?_⟩
  · simp [processAgentTask, analyzeTask, hC 0]
  · simp [processAgentTask, analyzeTask, hC 0]
  · simp [processAgentTask, analyzeTask, hC 0]
  · simp [processAgentTask, analyzeTask, hC 0]
  · simp [processAgentTask, createExecutionPlan, hC 1]
  · simp [processAgentTask, createExecutionPlan, hC 1]
  · simp [processAgentTask, executePlan, createExecutionPlan, hC 1]
  · simp [processAgentTask, executePlan]
  · simp [processAgentTask, generateFinalResponse, hC 2]
  · exact ⟨"I completed the task \"",
      "\" but encountered an error generating the response: " ++ err 2,
      by simp [processAgentTask, generateFinalResponse, hC 2, apologyText]⟩

/-- Witness for the amended C1 at a concrete input: the all-throwing
environment `throwEnv` (every completion call fails with "boom") against
`agentA`. -/
theorem allThrow_run_witness :
    AllThrowRunSpec throwEnv stA "a1" "ping" ctx0 "c0" "t1" (fun _ => "boom") :=
  allThrow_run throwEnv stA "a1" agentA "ping" ctx0 "c0" "t1" (fun _ => "boom")
    rfl (fun _ => rfl)
